import Mathlib

/-!
Verification of the named-lock coordination service (Go repository
`toumakido/named-lock`) against its natural-language specification.

The Go code is shallowly embedded: every database round trip (a capability
call against MySQL) is represented by the value the driver hands back at
that call site, collected in an environment structure, and each Go function
becomes a total Lean function from such an environment (plus any explicit
store state) to its results, the transaction outcome and the trace of
capability calls it performed.  `sql.NullInt64` is modelled by `NullInt64`,
driver-level errors by `Except Unit`, and Go's `(value, error)` returns by
result structures carrying an `Option SvcErr`.

The repository contains several revisions of the service and handler files;
they are modelled in namespaces: the current revision at the top level / `Cur`,
the older boolean-lock revision in `V1`, the error-on-contention revision of
the bare coordinator (src/unnamed/part_006) in `V2`, and the handler
revisions in `HA` (always HTTP 200) and `HB` (400/500 on errors).
-/

namespace NamedLock

/-- Model of Go's `sql.NullInt64`: a value scanned from a SQL row that may be
NULL.  When `valid` is false the payload `int64` is meaningless (Go leaves it
as its zero value, and the code reads it regardless of `valid`). -/
structure NullInt64 where
  valid : Bool
  int64 : Int
deriving DecidableEq, Repr

/-- Opaque driver-level error (contents of a Go `error` from `database/sql`). -/
abbrev DbErr := Unit

/-- Result of a single database round trip, as seen by the caller. -/
abbrev DbRes (α : Type) := Except DbErr α

/-- Tx.GetNamedLock (src/internal/db/db.go lines 68-75): scans the row of
`SELECT GET_LOCK(?, ?)` into a `sql.NullInt64` and returns `int(result.Int64)`
(so a NULL row collapses to 0); on a driver error it returns an error. -/
def getNamedLockResult (row : DbRes NullInt64) : DbRes Int :=
  match row with
  | .error e => .error e
  | .ok r => .ok r.int64

/-- Tx.ReleaseNamedLock (src/internal/db/db.go lines 80-87): scans the row of
`SELECT RELEASE_LOCK(?)` the same way; NULL (nobody holds the lock) collapses
to 0, the same value reported when another session holds it. -/
def releaseNamedLockResult (row : DbRes NullInt64) : DbRes Int :=
  match row with
  | .error e => .error e
  | .ok r => .ok r.int64

/-- Which connection a database call runs on.  A `*sql.Tx` is pinned to the
single connection that began the transaction; a call on the `*sql.DB` pool
while that transaction is open runs on a different pooled connection. -/
inductive Conn
  | txConn
  | poolConn
deriving DecidableEq, Repr

/-- The database operations performed by the composite service operations. -/
inductive DbOp
  | connectionID
  | getNamedLock
  | releaseNamedLock
  | getProductByCode
  | getProductForUpdate
  | getInventoryForUpdate
  | getOrderForUpdate
  | updateInventory
  | insertInventory
  | updateOrder
  | insertOrder
  | listOrderByCode
deriving DecidableEq, Repr

/-- A recorded capability call: which operation, on which connection. -/
structure DbCall where
  conn : Conn
  op : DbOp
deriving DecidableEq, Repr

/-- Final disposition of the transaction opened by a composite operation.
`committed` is reached exactly when `tx.Commit()` ran and succeeded; on every
other exit path the deferred `tx.Rollback()` takes effect (`rolledBack`), and
if `BeginTx` itself failed no transaction ever existed (`noTx`). -/
inductive TxOutcome
  | noTx
  | committed
  | rolledBack
deriving DecidableEq, Repr

/-- Service-level errors, one constructor per distinct `fmt.Errorf` message
produced by the lock service. -/
inductive SvcErr
  | beginTxFailed
  | connIdFailed
  | acquireFailed
  | acquireNotOne (r : Int)
  | acquireNotTrue
  | releaseFailed
  | releaseNotOne (r : Int)
  | releaseNotTrue
  | commitFailed
  | getProductFailed
  | productNotFound (code : String)
  | getInventoryFailed
  | updateInventoryFailed
  | insertInventoryFailed
  | getOrderFailed
  | updateOrderFailed
  | insertOrderFailed
  | listOrdersFailed
  | contended
  | notHeld
deriving DecidableEq, Repr

/-- Errors whose message begins `failed to acquire lock`: the acquire step
failed, either at the capability level or because GET_LOCK did not return 1
(respectively did not return true in the boolean revision). -/
def SvcErr.isAcquireFailure : SvcErr → Bool
  | .acquireFailed | .acquireNotOne _ | .acquireNotTrue => true
  | _ => false

/-- Errors whose message begins `failed to release`: the release step failed
after the lock had been acquired. -/
def SvcErr.isReleaseFailure : SvcErr → Bool
  | .releaseFailed | .releaseNotOne _ | .releaseNotTrue => true
  | _ => false

/-! ### Lock history (src/unnamed/part_004, DB.SaveLockHistory; schema in
src/docker/mysql/init) -/

/-- A row of the `lock_history` table. -/
structure HistoryEntry where
  id : Nat
  lockName : String
  sessionId : String
  status : String
  releasedAt : Option Nat
deriving DecidableEq, Repr

/-- DB.SaveLockHistory (src/unnamed/part_004 lines 104-115).  For status
`acquired` it INSERTs a fresh row (auto-increment id `nextId`, `released_at`
NULL); for any other status it runs
`UPDATE lock_history SET released_at = CURRENT_TIMESTAMP, status = ?
 WHERE lock_name = ? AND session_id = ? AND status = 'acquired'`,
i.e. it closes every still-open `acquired` row matching the name and session,
with no LIMIT or ordering. -/
def saveLockHistory (history : List HistoryEntry) (nextId now : Nat)
    (lockName sessionId status : String) : List HistoryEntry :=
  if status = "acquired" then
    history ++ [⟨nextId, lockName, sessionId, status, none⟩]
  else
    history.map fun e =>
      if e.lockName = lockName ∧ e.sessionId = sessionId ∧ e.status = "acquired" then
        { e with releasedAt := some now, status := status }
      else e

/-! ### Bare coordinator operations, current revision
(src/internal/service/lock_service.go lines 255-341) -/

/-- Environment for one `AcquireLock` call: the driver results of its three
round trips (CONNECTION_ID, GET_LOCK, and the best-effort history INSERT). -/
structure AcquireLockEnv where
  connId : DbRes Int
  lockRow : DbRes NullInt64
  saveHistoryErr : Bool
deriving Repr

/-- Result of `AcquireLock`: Go returns `(bool, string, error)`; the history
table after the call is threaded explicitly. -/
structure AcquireLockResult where
  success : Bool
  sessionId : String
  err : Option SvcErr
  history : List HistoryEntry
deriving Repr

/-- LockService.AcquireLock (src/internal/service/lock_service.go lines
255-280): reads the session id, calls GET_LOCK, and on result 1 appends a
best-effort history row (a history failure is only logged) and returns
`(true, sessionID, nil)`; on any other result it returns `(false, "", nil)`;
on a capability error it returns `(false, "", err)`. -/
def acquireLock (env : AcquireLockEnv) (lockName : String)
    (history : List HistoryEntry) (nextId now : Nat) : AcquireLockResult :=
  match env.connId with
  | .error _ => ⟨false, "", some .connIdFailed, history⟩
  | .ok sessionID =>
    match getNamedLockResult env.lockRow with
    | .error _ => ⟨false, "", some .acquireFailed, history⟩
    | .ok result =>
      if result = 1 then
        let history :=
          if env.saveHistoryErr then history
          else saveLockHistory history nextId now lockName (toString sessionID) "acquired"
        ⟨true, toString sessionID, none, history⟩
      else
        ⟨false, "", none, history⟩

/-- Environment for one `ReleaseLock` call. -/
structure ReleaseLockEnv where
  connId : DbRes Int
  releaseRow : DbRes NullInt64
  saveHistoryErr : Bool
deriving Repr

/-- Result of `ReleaseLock`: Go returns `(bool, error)`. -/
structure ReleaseLockResult where
  success : Bool
  err : Option SvcErr
  history : List HistoryEntry
deriving Repr

/-- LockService.ReleaseLock (src/internal/service/lock_service.go lines
283-308): reads the session id, calls RELEASE_LOCK, and on result 1 closes the
matching history rows (best effort) and returns `(true, nil)`; on any other
result — lock held by another session or by nobody — it returns
`(false, nil)`; on a capability error `(false, err)`. -/
def releaseLock (env : ReleaseLockEnv) (lockName : String)
    (history : List HistoryEntry) (now : Nat) : ReleaseLockResult :=
  match env.connId with
  | .error _ => ⟨false, some .connIdFailed, history⟩
  | .ok sessionID =>
    match releaseNamedLockResult env.releaseRow with
    | .error _ => ⟨false, some .releaseFailed, history⟩
    | .ok result =>
      if result = 1 then
        let history :=
          if env.saveHistoryErr then history
          else saveLockHistory history 0 now lockName (toString sessionID) "released"
        ⟨true, none, history⟩
      else
        ⟨false, none, history⟩

/-- LockService.IsLockFree (src/internal/service/lock_service.go lines
326-341) composed with DB.IsFreeLock (src/unnamed/part_004 lines 72-79): a
NULL reply from IS_FREE_LOCK (no such lock) yields `true`, otherwise the reply
is compared against 1. -/
def isLockFree (row : DbRes NullInt64) : DbRes Bool :=
  match row with
  | .error e => .error e
  | .ok result =>
    if !result.valid then .ok true
    else .ok (result.int64 = 1)

/-- LockService.GetLockOwner (src/internal/service/lock_service.go lines
311-324) composed with DB.GetLockOwner: a valid IS_USED_LOCK reply reports the
holder's session id, NULL reports no owner. -/
def getLockOwner (row : DbRes NullInt64) : DbRes (Bool × String) :=
  match row with
  | .error e => .error e
  | .ok result =>
    if result.valid then .ok (true, toString result.int64)
    else .ok (false, "")

end NamedLock

namespace NamedLock.V2

/-! ### Bare coordinator operations, revision src/unnamed/part_006 lines
27-81: identical flow, but contention and release-by-non-holder are reported
as non-nil errors instead of plain `false` results. -/

/-- LockService.AcquireLock (src/unnamed/part_006 lines 28-53): same as the
current revision except that a GET_LOCK result other than 1 yields the error
`failed to acquire lock: lock is already held by another session`. -/
def acquireLock (env : AcquireLockEnv) (lockName : String)
    (history : List HistoryEntry) (nextId now : Nat) : AcquireLockResult :=
  match env.connId with
  | .error _ => ⟨false, "", some .connIdFailed, history⟩
  | .ok sessionID =>
    match getNamedLockResult env.lockRow with
    | .error _ => ⟨false, "", some .acquireFailed, history⟩
    | .ok result =>
      if result = 1 then
        let history :=
          if env.saveHistoryErr then history
          else saveLockHistory history nextId now lockName (toString sessionID) "acquired"
        ⟨true, toString sessionID, none, history⟩
      else
        ⟨false, "", some .contended, history⟩

/-- LockService.ReleaseLock (src/unnamed/part_006 lines 56-81): same as the
current revision except that a RELEASE_LOCK result other than 1 yields the
error `failed to release lock: lock is not held by this session or does not
exist`. -/
def releaseLock (env : ReleaseLockEnv) (lockName : String)
    (history : List HistoryEntry) (now : Nat) : ReleaseLockResult :=
  match env.connId with
  | .error _ => ⟨false, some .connIdFailed, history⟩
  | .ok sessionID =>
    match releaseNamedLockResult env.releaseRow with
    | .error _ => ⟨false, some .releaseFailed, history⟩
    | .ok result =>
      if result = 1 then
        let history :=
          if env.saveHistoryErr then history
          else saveLockHistory history 0 now lockName (toString sessionID) "released"
        ⟨true, none, history⟩
      else
        ⟨false, some .notHeld, history⟩

end NamedLock.V2

namespace NamedLock

/-! ### Composite operation: AcquireHoldReleaseLock, current revision
(src/internal/service/lock_service.go lines 387-444) -/

/-- Environment for one `AcquireHoldReleaseLock` call: driver results of its
seven round trips, in program order. -/
structure AhrEnv where
  beginTx : DbRes Unit
  connId1 : DbRes Int
  lockRow : DbRes NullInt64
  connId2 : DbRes Int
  connId3 : DbRes Int
  releaseRow : DbRes NullInt64
  commit : DbRes Unit
deriving Repr

/-- Result of a composite operation that returns `(string, error)` in Go,
together with the transaction outcome and the trace of in-transaction
capability calls. -/
structure AhrResult where
  session : String
  err : Option SvcErr
  outcome : TxOutcome
  calls : List DbCall
deriving Repr

/-- LockService.AcquireHoldReleaseLock (src/internal/service/lock_service.go
lines 387-444): begin a transaction (with `defer tx.Rollback()`), read the
connection id, GET_LOCK — returning early with an acquire error unless the
result is 1 — read the connection id twice more around the hold sleep,
RELEASE_LOCK — returning early with a release error unless the result is 1 —
then commit.  The deferred rollback makes every early return roll the
transaction back. -/
def acquireHoldReleaseLock (env : AhrEnv) : AhrResult :=
  match env.beginTx with
  | .error _ => ⟨"", some .beginTxFailed, .noTx, []⟩
  | .ok _ =>
    match env.connId1 with
    | .error _ => ⟨"", some .connIdFailed, .rolledBack, [⟨.txConn, .connectionID⟩]⟩
    | .ok sID =>
      let sessionID := toString sID
      let calls := [⟨.txConn, .connectionID⟩, ⟨.txConn, .getNamedLock⟩]
      match getNamedLockResult env.lockRow with
      | .error _ => ⟨sessionID, some .acquireFailed, .rolledBack, calls⟩
      | .ok result =>
        if result ≠ 1 then ⟨sessionID, some (.acquireNotOne result), .rolledBack, calls⟩
        else
          let calls := calls ++ [⟨.txConn, .connectionID⟩]
          match env.connId2 with
          | .error _ => ⟨"", some .connIdFailed, .rolledBack, calls⟩
          | .ok _ =>
            let calls := calls ++ [⟨.txConn, .connectionID⟩]
            match env.connId3 with
            | .error _ => ⟨"", some .connIdFailed, .rolledBack, calls⟩
            | .ok _ =>
              let calls := calls ++ [⟨.txConn, .releaseNamedLock⟩]
              match releaseNamedLockResult env.releaseRow with
              | .error _ => ⟨sessionID, some .releaseFailed, .rolledBack, calls⟩
              | .ok result2 =>
                if result2 ≠ 1 then ⟨sessionID, some (.releaseNotOne result2), .rolledBack, calls⟩
                else
                  match env.commit with
                  | .error _ => ⟨sessionID, some .commitFailed, .rolledBack, calls⟩
                  | .ok _ => ⟨sessionID, none, .committed, calls⟩

end NamedLock

namespace NamedLock.V1

/-! ### Composite operations, boolean-lock revision
(src/internal/service/lock_service.go lines 37-230, paired with the db
revision in src/unnamed/part_005 lines 131-330) -/

/-- Environment for the boolean-lock `AcquireHoldReleaseLock` (lines 37-94):
in this revision `tx.GetNamedLock` / `tx.ReleaseNamedLock` return `bool`. -/
structure AhrEnv where
  beginTx : DbRes Unit
  connId1 : DbRes Int
  getLock : DbRes Bool
  connId2 : DbRes Int
  connId3 : DbRes Int
  release : DbRes Bool
  commit : DbRes Unit
deriving Repr

/-- LockService.AcquireHoldReleaseLock, boolean-lock revision
(src/internal/service/lock_service.go lines 37-94): same control flow as the
current revision, with the acquire/release checks being `if !result`. -/
def acquireHoldReleaseLock (env : AhrEnv) : AhrResult :=
  match env.beginTx with
  | .error _ => ⟨"", some .beginTxFailed, .noTx, []⟩
  | .ok _ =>
    match env.connId1 with
    | .error _ => ⟨"", some .connIdFailed, .rolledBack, [⟨.txConn, .connectionID⟩]⟩
    | .ok sID =>
      let sessionID := toString sID
      let calls := [⟨.txConn, .connectionID⟩, ⟨.txConn, .getNamedLock⟩]
      match env.getLock with
      | .error _ => ⟨sessionID, some .acquireFailed, .rolledBack, calls⟩
      | .ok result =>
        if !result then ⟨sessionID, some .acquireNotTrue, .rolledBack, calls⟩
        else
          let calls := calls ++ [⟨.txConn, .connectionID⟩]
          match env.connId2 with
          | .error _ => ⟨"", some .connIdFailed, .rolledBack, calls⟩
          | .ok _ =>
            let calls := calls ++ [⟨.txConn, .connectionID⟩]
            match env.connId3 with
            | .error _ => ⟨"", some .connIdFailed, .rolledBack, calls⟩
            | .ok _ =>
              let calls := calls ++ [⟨.txConn, .releaseNamedLock⟩]
              match env.release with
              | .error _ => ⟨sessionID, some .releaseFailed, .rolledBack, calls⟩
              | .ok result2 =>
                if !result2 then ⟨sessionID, some .releaseNotTrue, .rolledBack, calls⟩
                else
                  match env.commit with
                  | .error _ => ⟨sessionID, some .commitFailed, .rolledBack, calls⟩
                  | .ok _ => ⟨sessionID, none, .committed, calls⟩

/-- Product row of this revision (src/unnamed/part_005 lines 222-225):
`products` keyed by `code` with a `quantity` column. -/
structure Product where
  code : String
  quantity : Int
deriving DecidableEq, Repr

/-- Order row as used by AcquireOrderReleaseLock (lines 197-200); the db file
defining this revision's `Order` with a `Code` column is not in the sources,
so the field set is taken from the caller's usage (`ID` a uuid string, `Code`
the lock name). -/
structure OrderRec where
  id : String
  code : String
deriving DecidableEq, Repr

/-- Result of a composite operation that returns only `error` in Go. -/
structure CompositeResult where
  err : Option SvcErr
  outcome : TxOutcome
  calls : List DbCall
deriving Repr

/-- Environment for `AcquireProductReleaseLock` (lines 99-173). -/
structure AprEnv where
  beginTx : DbRes Unit
  getLock : DbRes Bool
  getProduct : DbRes (Option Product)
  updateInventoryErr : Bool
  insertInventoryErr : Bool
  release : DbRes Bool
  commit : DbRes Unit
deriving Repr

/-- LockService.AcquireProductReleaseLock (src/internal/service/
lock_service.go lines 99-173): begin transaction, GET_LOCK, read the product
row FOR UPDATE; update its quantity by `addQuantity` if present, insert a new
row with quantity `addQuantity` if absent; RELEASE_LOCK, commit.  Every error
returns early under the deferred rollback. -/
def acquireProductReleaseLock (env : AprEnv) (_addQuantity : Int) : CompositeResult :=
  match env.beginTx with
  | .error _ => ⟨some .beginTxFailed, .noTx, []⟩
  | .ok _ =>
    let calls := [(⟨.txConn, .getNamedLock⟩ : DbCall)]
    match env.getLock with
    | .error _ => ⟨some .acquireFailed, .rolledBack, calls⟩
    | .ok result =>
      if !result then ⟨some .acquireNotTrue, .rolledBack, calls⟩
      else
        let calls := calls ++ [⟨.txConn, .getProductForUpdate⟩]
        match env.getProduct with
        | .error _ => ⟨some .getProductFailed, .rolledBack, calls⟩
        | .ok product? =>
          match product? with
          | some _ =>
            let calls := calls ++ [⟨.txConn, .updateInventory⟩]
            if env.updateInventoryErr then ⟨some .updateInventoryFailed, .rolledBack, calls⟩
            else
              let calls := calls ++ [⟨.txConn, .releaseNamedLock⟩]
              match env.release with
              | .error _ => ⟨some .releaseFailed, .rolledBack, calls⟩
              | .ok r2 =>
                if !r2 then ⟨some .releaseNotTrue, .rolledBack, calls⟩
                else
                  match env.commit with
                  | .error _ => ⟨some .commitFailed, .rolledBack, calls⟩
                  | .ok _ => ⟨none, .committed, calls⟩
          | none =>
            let calls := calls ++ [⟨.txConn, .insertInventory⟩]
            if env.insertInventoryErr then ⟨some .insertInventoryFailed, .rolledBack, calls⟩
            else
              let calls := calls ++ [⟨.txConn, .releaseNamedLock⟩]
              match env.release with
              | .error _ => ⟨some .releaseFailed, .rolledBack, calls⟩
              | .ok r2 =>
                if !r2 then ⟨some .releaseNotTrue, .rolledBack, calls⟩
                else
                  match env.commit with
                  | .error _ => ⟨some .commitFailed, .rolledBack, calls⟩
                  | .ok _ => ⟨none, .committed, calls⟩

/-- Environment for `AcquireOrderReleaseLock` (lines 177-230).  The
`listOrders` round trip is the `s.db.ListOrderByCode(code)` call at line 204:
it is issued on the `*sql.DB` pool, not on the transaction. -/
structure AorEnv where
  beginTx : DbRes Unit
  getLock : DbRes Bool
  insertOrderErr : Bool
  listOrders : DbRes (List OrderRec)
  release : DbRes Bool
  commit : DbRes Unit
deriving Repr

/-- LockService.AcquireOrderReleaseLock (src/internal/service/lock_service.go
lines 177-230): begin transaction, GET_LOCK, insert a new order row through
the transaction, then list the orders for the code through `s.db` — a pooled
connection, not the transaction's — then RELEASE_LOCK and commit on the
transaction. -/
def acquireOrderReleaseLock (env : AorEnv) : CompositeResult :=
  match env.beginTx with
  | .error _ => ⟨some .beginTxFailed, .noTx, []⟩
  | .ok _ =>
    let calls := [(⟨.txConn, .getNamedLock⟩ : DbCall)]
    match env.getLock with
    | .error _ => ⟨some .acquireFailed, .rolledBack, calls⟩
    | .ok result =>
      if !result then ⟨some .acquireNotTrue, .rolledBack, calls⟩
      else
        let calls := calls ++ [⟨.txConn, .insertOrder⟩]
        if env.insertOrderErr then ⟨some .insertOrderFailed, .rolledBack, calls⟩
        else
          let calls := calls ++ [⟨.poolConn, .listOrderByCode⟩]
          match env.listOrders with
          | .error _ => ⟨some .listOrdersFailed, .rolledBack, calls⟩
          | .ok _ =>
            let calls := calls ++ [⟨.txConn, .releaseNamedLock⟩]
            match env.release with
            | .error _ => ⟨some .releaseFailed, .rolledBack, calls⟩
            | .ok r2 =>
              if !r2 then ⟨some .releaseNotTrue, .rolledBack, calls⟩
              else
                match env.commit with
                | .error _ => ⟨some .commitFailed, .rolledBack, calls⟩
                | .ok _ => ⟨none, .committed, calls⟩

end NamedLock.V1

namespace NamedLock

/-! ### Composite operation: AcquireProcessReleaseLock, current revision
(src/internal/service/lock_service.go lines 449-583, db layer
src/internal/db/db.go lines 99-258) -/

/-- Product row (src/internal/db/db.go lines 100-105).  The `price` column is
only printed by the service, never computed on, and is omitted here. -/
structure Product where
  id : Int
  code : String
  name : String
deriving DecidableEq, Repr

/-- Inventory row of `product_inventory` (src/internal/db/db.go lines
108-112). -/
structure Inventory where
  id : Int
  productID : Int
  quantity : Int
deriving DecidableEq, Repr

/-- Order row of `orders` (src/internal/db/db.go lines 115-120). -/
structure OrderRow where
  id : Int
  productID : Int
  quantity : Int
  status : String
deriving DecidableEq, Repr

/-- Tx.GetInventoryForUpdate (src/internal/db/db.go lines 143-161): the first
`product_inventory` row with the given `product_id`, FOR UPDATE; no row yields
`nil` without error. -/
def getInventoryForUpdate (invs : List Inventory) (productID : Int) : Option Inventory :=
  invs.find? fun i => i.productID = productID

/-- Tx.UpdateInventory (src/internal/db/db.go lines 187-199):
`UPDATE product_inventory SET quantity = ? WHERE id = ?`. -/
def updateInventory (invs : List Inventory) (inv : Inventory) : List Inventory :=
  invs.map fun i => if i.id = inv.id then { i with quantity := inv.quantity } else i

/-- Tx.InsertInventory (src/internal/db/db.go lines 202-221): INSERT a new row
whose id is assigned by auto-increment (`nextId`). -/
def insertInventory (invs : List Inventory) (nextId : Int) (productID quantity : Int) :
    List Inventory :=
  invs ++ [⟨nextId, productID, quantity⟩]

/-- Environment for one `AcquireProcessReleaseLock` call.  The reads of the
`products` and `orders` tables are supplied by the environment; the
`product_inventory` table is threaded explicitly as state so that consecutive
calls observe each other's committed writes. -/
structure ProcEnv where
  beginTx : DbRes Unit
  lockRow : DbRes NullInt64
  getProduct : DbRes (Option Product)
  getInventoryErr : Bool
  updateInventoryErr : Bool
  insertInventoryErr : Bool
  getOrder : DbRes (Option OrderRow)
  updateOrderErr : Bool
  insertOrderErr : Bool
  releaseRow : DbRes NullInt64
  commit : DbRes Unit
deriving Repr

/-- Result of `AcquireProcessReleaseLock`: the Go error, the transaction
outcome, the persisted `product_inventory` table (the in-transaction writes
survive only on commit), and the call trace. -/
structure ProcResult where
  err : Option SvcErr
  outcome : TxOutcome
  inventories : List Inventory
  calls : List DbCall
deriving Repr

/-- Tail of AcquireProcessReleaseLock after the inventory branch
(src/internal/service/lock_service.go lines 530-582): process the pending
order row (update if present, insert if absent), RELEASE_LOCK, commit.
`invs` is the pre-transaction inventory table (restored on rollback), `txInvs`
the table as written inside the transaction (persisted on commit). -/
def procOrderReleaseCommit (env : ProcEnv) (invs txInvs : List Inventory)
    (calls : List DbCall) : ProcResult :=
  let calls := calls ++ [⟨.txConn, .getOrderForUpdate⟩]
  match env.getOrder with
  | .error _ => ⟨some .getOrderFailed, .rolledBack, invs, calls⟩
  | .ok order? =>
    let orderStep :=
      match order? with
      | some _ =>
        ((⟨.txConn, .updateOrder⟩ : DbCall),
          if env.updateOrderErr then some SvcErr.updateOrderFailed else none)
      | none =>
        ((⟨.txConn, .insertOrder⟩ : DbCall),
          if env.insertOrderErr then some SvcErr.insertOrderFailed else none)
    let calls := calls ++ [orderStep.1]
    match orderStep.2 with
    | some e => ⟨some e, .rolledBack, invs, calls⟩
    | none =>
      let calls := calls ++ [⟨.txConn, .releaseNamedLock⟩]
      match releaseNamedLockResult env.releaseRow with
      | .error _ => ⟨some .releaseFailed, .rolledBack, invs, calls⟩
      | .ok rr =>
        if rr ≠ 1 then ⟨some (.releaseNotOne rr), .rolledBack, invs, calls⟩
        else
          match env.commit with
          | .error _ => ⟨some .commitFailed, .rolledBack, invs, calls⟩
          | .ok _ => ⟨none, .committed, txInvs, calls⟩

/-- LockService.AcquireProcessReleaseLock (src/internal/service/
lock_service.go lines 449-583): begin transaction, GET_LOCK (result must
be 1), read the product by code — when the product is missing the lock is
released, the transaction is COMMITTED, and the error `product not found` is
returned — otherwise read the inventory row FOR UPDATE, add `addQuantity` to
it (update) or insert a fresh row seeded with `addQuantity`, process the
pending order row the same way, then RELEASE_LOCK and commit.  A rollback
discards the in-transaction inventory writes. -/
def acquireProcessReleaseLock (env : ProcEnv) (productCode : String) (addQuantity : Int)
    (invs : List Inventory) (nextInvId : Int) : ProcResult :=
  match env.beginTx with
  | .error _ => ⟨some .beginTxFailed, .noTx, invs, []⟩
  | .ok _ =>
    let calls := [(⟨.txConn, .getNamedLock⟩ : DbCall)]
    match getNamedLockResult env.lockRow with
    | .error _ => ⟨some .acquireFailed, .rolledBack, invs, calls⟩
    | .ok result =>
      if result ≠ 1 then ⟨some (.acquireNotOne result), .rolledBack, invs, calls⟩
      else
        let calls := calls ++ [⟨.txConn, .getProductByCode⟩]
        match env.getProduct with
        | .error _ => ⟨some .getProductFailed, .rolledBack, invs, calls⟩
        | .ok none =>
          let calls := calls ++ [⟨.txConn, .releaseNamedLock⟩]
          match releaseNamedLockResult env.releaseRow with
          | .error _ => ⟨some .releaseFailed, .rolledBack, invs, calls⟩
          | .ok rr =>
            if rr ≠ 1 then ⟨some (.releaseNotOne rr), .rolledBack, invs, calls⟩
            else
              match env.commit with
              | .error _ => ⟨some .commitFailed, .rolledBack, invs, calls⟩
              | .ok _ => ⟨some (.productNotFound productCode), .committed, invs, calls⟩
        | .ok (some product) =>
          let calls := calls ++ [⟨.txConn, .getInventoryForUpdate⟩]
          if env.getInventoryErr then ⟨some .getInventoryFailed, .rolledBack, invs, calls⟩
          else
            match getInventoryForUpdate invs product.id with
            | some inventory =>
              let calls := calls ++ [⟨.txConn, .updateInventory⟩]
              if env.updateInventoryErr then
                ⟨some .updateInventoryFailed, .rolledBack, invs, calls⟩
              else
                procOrderReleaseCommit env invs
                  (updateInventory invs
                    { inventory with quantity := inventory.quantity + addQuantity }) calls
            | none =>
              let calls := calls ++ [⟨.txConn, .insertInventory⟩]
              if env.insertInventoryErr then
                ⟨some .insertInventoryFailed, .rolledBack, invs, calls⟩
              else
                procOrderReleaseCommit env invs
                  (insertInventory invs nextInvId product.id addQuantity) calls

end NamedLock

namespace NamedLock

/-- Shape of a rendered HTTP reply: the transport status code, the value of
the JSON payload's `success` field (`none` when the payload has no such
field), and the payload's message/error text, if any. -/
structure HandlerResponse where
  status : Nat
  success : Option Bool
  message : Option String
deriving DecidableEq, Repr

end NamedLock

namespace NamedLock.HA

/-! ### HTTP handlers, always-200 revision
(src/internal/handler/lock_handler.go lines 77-152) -/

/-- Environment for the AcquireHoldReleaseLock handler: whether binding the
request body failed, and the `(sessionID, error)` pair the service call
returned. -/
structure AhrHandlerEnv where
  bindErr : Bool
  svcSession : String
  svcErr : Option SvcErr
deriving Repr

/-- LockHandler.AcquireHoldReleaseLock (src/internal/handler/lock_handler.go
lines 77-108): a bind failure and a service failure are both rendered as
HTTP 200 with `success:false` and a message; success is HTTP 200 with
`success:true`. -/
def acquireHoldReleaseLockHandler (env : AhrHandlerEnv) : HandlerResponse :=
  if env.bindErr then ⟨200, some false, some "Invalid request body"⟩
  else
    match env.svcErr with
    | some _ => ⟨200, some false, some "Operation failed"⟩
    | none => ⟨200, some true, none⟩

/-- Environment for the AcquireProcessReleaseLock handler. -/
structure ProcHandlerEnv where
  bindErr : Bool
  svcErr : Option SvcErr
  sessionRes : DbRes Int
deriving Repr

/-- LockHandler.AcquireProcessReleaseLock (src/internal/handler/
lock_handler.go lines 111-152): bind failure, service failure and a failing
session-id read are all rendered as HTTP 200 with `success:false` plus a
message; success is HTTP 200 with `success:true` and a message. -/
def acquireProcessReleaseLockHandler (env : ProcHandlerEnv) : HandlerResponse :=
  if env.bindErr then ⟨200, some false, some "Invalid request body"⟩
  else
    match env.svcErr with
    | some _ => ⟨200, some false, some "Operation failed"⟩
    | none =>
      match env.sessionRes with
      | .error _ => ⟨200, some false, some "Failed to get session ID"⟩
      | .ok _ => ⟨200, some true, some "Process completed successfully"⟩

end NamedLock.HA

namespace NamedLock.HB

/-! ### HTTP handlers, 400/500 revision
(src/internal/handler/lock_handler.go lines 344-386).  In this revision the
service's AcquireHoldReleaseLock returns `(success, sessionID, error)`; the
handler maps a bind failure to HTTP 400 and internal failures to HTTP 500,
neither payload carrying a `success` field. -/

/-- Environment for the 400/500 AcquireHoldReleaseLock handler. -/
structure AhrHandlerEnv where
  bindErr : Bool
  curSession : DbRes Int
  svc : DbRes (Bool × String)
  ownerRow : DbRes NullInt64
deriving Repr

/-- LockHandler.AcquireHoldReleaseLock (src/internal/handler/lock_handler.go
lines 345-386): bind failure responds `http.StatusBadRequest` (400); a failing
session-id read, a service error, or a failing owner lookup respond
`http.StatusInternalServerError` (500); otherwise HTTP 200 with the service's
boolean `success`. -/
def acquireHoldReleaseLockHandler (env : AhrHandlerEnv) : HandlerResponse :=
  if env.bindErr then ⟨400, none, some "Invalid request body"⟩
  else
    match env.curSession with
    | .error _ => ⟨500, none, some "Failed to get current session ID"⟩
    | .ok _ =>
      match env.svc with
      | .error _ => ⟨500, none, some "Operation failed"⟩
      | .ok res =>
        if res.1 then ⟨200, some true, some "Lock acquired, held, and released successfully"⟩
        else
          match getLockOwner env.ownerRow with
          | .error _ => ⟨500, none, some "Failed to get lock owner"⟩
          | .ok owner =>
            if owner.1 then ⟨200, some false, some "Failed to acquire lock: held by another session"⟩
            else ⟨200, some false, some "Failed to acquire lock"⟩

end NamedLock.HB

namespace NamedLock

/-! ## Claim theorems -/

/-- C7: for every lock name, IsLockFree returns true when the capability
tri-state reply is NULL (no such name), and otherwise returns true exactly
when the reply equals 1; hence a name whose reply is NULL-or-1 (a name never
acquired) reports free. -/
theorem C7_isLockFree_tristate (r : NullInt64) :
    (r.valid = false → isLockFree (.ok r) = .ok true) ∧
    (r.valid = true → isLockFree (.ok r) = .ok (decide (r.int64 = 1))) ∧
    (r.valid = false ∨ r.int64 = 1 → isLockFree (.ok r) = .ok true) := by
  refine ⟨fun h => ?_, fun h => ?_, fun h => ?_⟩ <;> cases hv : r.valid <;>
    simp_all [isLockFree]

/-- C7 witness: a NULL reply and a reply of 1 both report free, a valid reply
of 0 reports not free. -/
theorem C7_isLockFree_tristate_witness :
    isLockFree (.ok ⟨false, 0⟩) = .ok true ∧
    isLockFree (.ok ⟨true, 1⟩) = .ok true ∧
    isLockFree (.ok ⟨true, 0⟩) = .ok false :=
  ⟨(C7_isLockFree_tristate ⟨false, 0⟩).1 rfl,
   (C7_isLockFree_tristate ⟨true, 1⟩).2.2 (Or.inr rfl),
   (C7_isLockFree_tristate ⟨true, 0⟩).2.1 rfl⟩

/-- C10: whenever AcquireLock does not report success — a failing session-id
read, a capability error on GET_LOCK, or a GET_LOCK result other than 1 — the
session-id string it returns is empty. -/
theorem C10_acquireLock_no_session_without_success
    (env : AcquireLockEnv) (lockName : String) (history : List HistoryEntry)
    (nextId now : Nat)
    (h : (acquireLock env lockName history nextId now).success = false) :
    (acquireLock env lockName history nextId now).sessionId = "" := by
  unfold acquireLock at h ⊢
  rcases hc : env.connId with e | sid
  · simp [hc]
  · simp only [hc] at h ⊢
    rcases hl : env.lockRow with e | row
    · simp [hl, getNamedLockResult]
    · simp only [hl, getNamedLockResult] at h ⊢
      by_cases h1 : row.int64 = 1 <;> simp_all

/-- C10 witness: a contended acquire (GET_LOCK result 0) reports no success
and an empty session id. -/
theorem C10_acquireLock_no_session_without_success_witness :
    (acquireLock ⟨.ok 7, .ok ⟨true, 0⟩, false⟩ "L" [] 1 0).success = false ∧
    (acquireLock ⟨.ok 7, .ok ⟨true, 0⟩, false⟩ "L" [] 1 0).sessionId = "" :=
  ⟨by decide,
   C10_acquireLock_no_session_without_success ⟨.ok 7, .ok ⟨true, 0⟩, false⟩ "L" [] 1 0 (by decide)⟩

end NamedLock

namespace NamedLock

/-- C3 counterexample: in the revision of the bare coordinator in
src/unnamed/part_006, a contended acquire (GET_LOCK result 0) and a release by
a non-holder (RELEASE_LOCK result 0) both return a NON-nil error, refuting the
claim that contention is never reported as an error. -/
theorem C3_counterexample :
    (V2.acquireLock ⟨.ok 7, .ok ⟨true, 0⟩, false⟩ "L" [] 1 0).err = some .contended ∧
    (V2.releaseLock ⟨.ok 7, .ok ⟨true, 0⟩, false⟩ "L" [] 0).err = some .notHeld := by
  constructor <;> rfl

/-- C3 amended: the current-coordinator AcquireLock reports a contended
acquire (GET_LOCK result other than 1, including NULL) as `(false, "", nil)`
and ReleaseLock reports a release by a non-holder or of an unheld name
(RELEASE_LOCK result other than 1, including NULL) as `(false, nil)`, never as
an error; the src/unnamed/part_006 revision instead returns the errors
`contended` resp. `notHeld` in exactly those situations. -/
theorem C3_contention_is_not_an_error
    (env : AcquireLockEnv) (renv : ReleaseLockEnv) (lockName : String)
    (history : List HistoryEntry) (nextId now : Nat)
    (sid rsid : Int) (row rrow : NullInt64)
    (hc : env.connId = .ok sid) (hl : env.lockRow = .ok row) (h1 : row.int64 ≠ 1)
    (hrc : renv.connId = .ok rsid) (hrl : renv.releaseRow = .ok rrow) (hr1 : rrow.int64 ≠ 1) :
    acquireLock env lockName history nextId now = ⟨false, "", none, history⟩ ∧
    releaseLock renv lockName history now = ⟨false, none, history⟩ ∧
    V2.acquireLock env lockName history nextId now = ⟨false, "", some .contended, history⟩ ∧
    V2.releaseLock renv lockName history now = ⟨false, some .notHeld, history⟩ := by
  refine ⟨?_, ?_, ?_, ?_⟩ <;>
    simp [acquireLock, releaseLock, V2.acquireLock, V2.releaseLock, hc, hl, h1, hrc, hrl, hr1,
      getNamedLockResult, releaseNamedLockResult]

/-- C3 witness: the amended statement evaluated at a contended acquire and a
non-holder release, GET_LOCK/RELEASE_LOCK both answering 0. -/
theorem C3_contention_is_not_an_error_witness :
    acquireLock ⟨.ok 7, .ok ⟨true, 0⟩, false⟩ "L" [] 1 0 = ⟨false, "", none, []⟩ ∧
    releaseLock ⟨.ok 7, .ok ⟨true, 0⟩, false⟩ "L" [] 0 = ⟨false, none, []⟩ ∧
    V2.acquireLock ⟨.ok 7, .ok ⟨true, 0⟩, false⟩ "L" [] 1 0 = ⟨false, "", some .contended, []⟩ ∧
    V2.releaseLock ⟨.ok 7, .ok ⟨true, 0⟩, false⟩ "L" [] 0 = ⟨false, some .notHeld, []⟩ :=
  C3_contention_is_not_an_error ⟨.ok 7, .ok ⟨true, 0⟩, false⟩ ⟨.ok 7, .ok ⟨true, 0⟩, false⟩
    "L" [] 1 0 7 7 ⟨true, 0⟩ ⟨true, 0⟩ rfl rfl (by decide) rfl rfl (by decide)

/-- C9 counterexample: with two still-open `acquired` rows for the same name
and session, the release transition rewrites BOTH rows — in particular row 1,
which is not the most recent open entry, is also modified — refuting the claim
that exactly the most recent open entry is closed and no other row is
touched. -/
theorem C9_counterexample :
    saveLockHistory
        [⟨1, "L", "42", "acquired", none⟩, ⟨2, "L", "42", "acquired", none⟩]
        0 100 "L" "42" "released" =
      [⟨1, "L", "42", "released", some 100⟩, ⟨2, "L", "42", "released", some 100⟩] := by
  decide

/-- C9 amended: a history row is appended (open, `acquired`) exactly on a
successful acquire; the release transition closes EVERY still-open `acquired`
row with the same lock name and session id — not only the most recent — and
leaves every other row unchanged; a release whose RELEASE_LOCK result is not 1
modifies no history at all. -/
theorem C9_history_lifecycle :
    (∀ (h : List HistoryEntry) (nid now : Nat) (name sid : String) (i : Nat),
      (saveLockHistory h nid now name sid "released")[i]? =
        (h[i]?).map fun e =>
          if e.lockName = name ∧ e.sessionId = sid ∧ e.status = "acquired" then
            { e with releasedAt := some now, status := "released" }
          else e) ∧
    (∀ (env : AcquireLockEnv) (name : String) (h : List HistoryEntry) (nid now : Nat)
        (sid : Int) (row : NullInt64),
      env.connId = .ok sid → env.lockRow = .ok row → row.int64 = 1 →
        env.saveHistoryErr = false →
      (acquireLock env name h nid now).history =
        h ++ [⟨nid, name, toString sid, "acquired", none⟩]) ∧
    (∀ (env : AcquireLockEnv) (name : String) (h : List HistoryEntry) (nid now : Nat)
        (sid : Int) (row : NullInt64),
      env.connId = .ok sid → env.lockRow = .ok row → row.int64 ≠ 1 →
      (acquireLock env name h nid now).history = h) ∧
    (∀ (env : ReleaseLockEnv) (name : String) (h : List HistoryEntry) (now : Nat)
        (sid : Int) (row : NullInt64),
      env.connId = .ok sid → env.releaseRow = .ok row → row.int64 = 1 →
        env.saveHistoryErr = false →
      (releaseLock env name h now).history =
        saveLockHistory h 0 now name (toString sid) "released") ∧
    (∀ (env : ReleaseLockEnv) (name : String) (h : List HistoryEntry) (now : Nat)
        (sid : Int) (row : NullInt64),
      env.connId = .ok sid → env.releaseRow = .ok row → row.int64 ≠ 1 →
      (releaseLock env name h now).history = h) := by
  refine ⟨?_, ?_, ?_, ?_, ?_⟩
  · intro h nid now name sid i
    simp [saveLockHistory]
  · intro env name h nid now sid row hc hl h1 hs
    simp [acquireLock, hc, hl, getNamedLockResult, h1, hs, saveLockHistory]
  · intro env name h nid now sid row hc hl h1
    simp [acquireLock, hc, hl, getNamedLockResult, h1]
  · intro env name h now sid row hc hl h1 hs
    simp [releaseLock, hc, hl, releaseNamedLockResult, h1, hs]
  · intro env name h now sid row hc hl h1
    simp [releaseLock, hc, hl, releaseNamedLockResult, h1]

/-- C9 witness: the amended statement evaluated on a two-row history — the
acquire appends an open row, the successful release closes both matching open
rows, the failed release changes nothing. -/
theorem C9_history_lifecycle_witness :
    (acquireLock ⟨.ok 42, .ok ⟨true, 1⟩, false⟩ "L" [] 1 0).history =
      [⟨1, "L", "42", "acquired", none⟩] ∧
    (releaseLock ⟨.ok 42, .ok ⟨true, 1⟩, false⟩ "L"
        [⟨1, "L", "42", "acquired", none⟩, ⟨2, "L", "42", "acquired", none⟩] 100).history =
      saveLockHistory [⟨1, "L", "42", "acquired", none⟩, ⟨2, "L", "42", "acquired", none⟩]
        0 100 "L" "42" "released" ∧
    (releaseLock ⟨.ok 42, .ok ⟨true, 0⟩, false⟩ "L"
        [⟨1, "L", "42", "acquired", none⟩] 100).history = [⟨1, "L", "42", "acquired", none⟩] :=
  ⟨C9_history_lifecycle.2.1 ⟨.ok 42, .ok ⟨true, 1⟩, false⟩ "L" [] 1 0 42 ⟨true, 1⟩
      rfl rfl rfl rfl,
   C9_history_lifecycle.2.2.2.1 ⟨.ok 42, .ok ⟨true, 1⟩, false⟩ "L"
      [⟨1, "L", "42", "acquired", none⟩, ⟨2, "L", "42", "acquired", none⟩] 100 42 ⟨true, 1⟩
      rfl rfl rfl rfl,
   C9_history_lifecycle.2.2.2.2 ⟨.ok 42, .ok ⟨true, 0⟩, false⟩ "L"
      [⟨1, "L", "42", "acquired", none⟩] 100 42 ⟨true, 0⟩ rfl rfl (by decide)⟩

end NamedLock

namespace NamedLock

/-- Once its transaction has begun, the current-revision AcquireHoldReleaseLock
rolls back exactly when it returns an error (Commit is reached only on the
all-success path). -/
theorem ahr_rolledBack_iff (env : AhrEnv) (hb : env.beginTx = .ok ()) :
    ((acquireHoldReleaseLock env).outcome = .rolledBack ↔
      (acquireHoldReleaseLock env).err ≠ none) := by
  unfold acquireHoldReleaseLock
  rw [hb]
  rcases hc1 : env.connId1 with e1 | sid
  · simp
  rcases hl : env.lockRow with e2 | row
  · simp [getNamedLockResult]
  simp only [getNamedLockResult]
  by_cases h1 : row.int64 = 1
  · simp only [h1]
    rcases hc2 : env.connId2 with e3 | s2
    · simp
    rcases hc3 : env.connId3 with e4 | s3
    · simp
    rcases hr : env.releaseRow with e5 | row2
    · simp [releaseNamedLockResult]
    simp only [releaseNamedLockResult]
    by_cases h2 : row2.int64 = 1
    · rcases hcm : env.commit with e6 | u <;> simp [h2]
    · simp [h2]
  · simp [h1]

/-- The boolean-lock revision of AcquireHoldReleaseLock rolls back exactly
when it returns an error. -/
theorem ahrV1_rolledBack_iff (env : V1.AhrEnv) (hb : env.beginTx = .ok ()) :
    ((V1.acquireHoldReleaseLock env).outcome = .rolledBack ↔
      (V1.acquireHoldReleaseLock env).err ≠ none) := by
  unfold V1.acquireHoldReleaseLock
  rw [hb]
  rcases hc1 : env.connId1 with e1 | sid
  · simp
  rcases hl : env.getLock with e2 | b
  · simp
  cases b
  · simp
  rcases hc2 : env.connId2 with e3 | s2
  · simp
  rcases hc3 : env.connId3 with e4 | s3
  · simp
  rcases hr : env.release with e5 | b2
  · simp
  cases b2
  · simp
  rcases hcm : env.commit with e6 | u <;> simp

/-- The boolean-lock revision of AcquireProductReleaseLock rolls back exactly
when it returns an error. -/
theorem aprV1_rolledBack_iff (env : V1.AprEnv) (q : Int) (hb : env.beginTx = .ok ()) :
    ((V1.acquireProductReleaseLock env q).outcome = .rolledBack ↔
      (V1.acquireProductReleaseLock env q).err ≠ none) := by
  unfold V1.acquireProductReleaseLock
  rw [hb]
  rcases hl : env.getLock with e2 | b
  · simp
  cases b
  · simp
  rcases hp : env.getProduct with e3 | p?
  · simp
  rcases p? with _ | p <;>
    [skip; skip] <;>
  · first
    | (cases hi : env.insertInventoryErr
       · simp [hi]
         rcases hr : env.release with e5 | b2
         · simp
         cases b2
         · simp
         rcases hcm : env.commit with e6 | u <;> simp
       · simp [hi])
    | (cases hu : env.updateInventoryErr
       · simp [hu]
         rcases hr : env.release with e5 | b2
         · simp
         cases b2
         · simp
         rcases hcm : env.commit with e6 | u <;> simp
       · simp [hu])

end NamedLock

namespace NamedLock

/-- The boolean-lock revision of AcquireOrderReleaseLock rolls back exactly
when it returns an error. -/
theorem aorV1_rolledBack_iff (env : V1.AorEnv) (hb : env.beginTx = .ok ()) :
    ((V1.acquireOrderReleaseLock env).outcome = .rolledBack ↔
      (V1.acquireOrderReleaseLock env).err ≠ none) := by
  unfold V1.acquireOrderReleaseLock
  rw [hb]
  rcases hl : env.getLock with e2 | b
  · simp
  cases b
  · simp
  cases hi : env.insertOrderErr
  · simp only [hi, Bool.false_eq_true, if_false]
    rcases ho : env.listOrders with e3 | os
    · simp
    rcases hr : env.release with e5 | b2
    · simp
    cases b2
    · simp
    rcases hcm : env.commit with e6 | u <;> simp
  · simp [hi]

/-- Once its transaction has begun, AcquireProcessReleaseLock commits exactly
when it returns either no error or the `product not found` error, and rolls
back exactly otherwise. -/
theorem proc_committed_iff (env : ProcEnv) (code : String) (q : Int)
    (invs : List Inventory) (nid : Int) (hb : env.beginTx = .ok ()) :
    ((acquireProcessReleaseLock env code q invs nid).outcome = .committed ↔
      ((acquireProcessReleaseLock env code q invs nid).err = none ∨
       (acquireProcessReleaseLock env code q invs nid).err = some (.productNotFound code))) ∧
    ((acquireProcessReleaseLock env code q invs nid).outcome = .rolledBack ↔
      ¬ ((acquireProcessReleaseLock env code q invs nid).err = none ∨
         (acquireProcessReleaseLock env code q invs nid).err = some (.productNotFound code))) := by
  unfold acquireProcessReleaseLock
  rw [hb]
  rcases hl : env.lockRow with e2 | row
  · simp [getNamedLockResult]
  simp only [getNamedLockResult]
  by_cases h1 : row.int64 = 1
  case neg => simp [h1]
  simp only [h1]
  rcases hp : env.getProduct with e3 | p?
  · simp
  rcases p? with _ | p
  · simp only []
    rcases hr : env.releaseRow with e5 | row2
    · simp [releaseNamedLockResult]
    simp only [releaseNamedLockResult]
    by_cases h2 : row2.int64 = 1
    · rcases hcm : env.commit with e6 | u <;> simp [h2]
    · simp [h2]
  · simp only []
    cases hg : env.getInventoryErr
    · simp only [hg, Bool.false_eq_true, if_false]
      rcases hf : getInventoryForUpdate invs p.id with _ | inv
      · cases hi : env.insertInventoryErr
        · simp only [hi, Bool.false_eq_true, if_false]
          unfold procOrderReleaseCommit
          rcases ho : env.getOrder with e4 | o?
          · simp
          rcases o? with _ | o <;> simp only []
          · cases hio : env.insertOrderErr
            · simp only [hio, Bool.false_eq_true, if_false]
              rcases hr : env.releaseRow with e5 | row2
              · simp [releaseNamedLockResult]
              simp only [releaseNamedLockResult]
              by_cases h2 : row2.int64 = 1
              · rcases hcm : env.commit with e6 | u <;> simp [h2]
              · simp [h2]
            · simp [hio]
          · cases huo : env.updateOrderErr
            · simp only [huo, Bool.false_eq_true, if_false]
              rcases hr : env.releaseRow with e5 | row2
              · simp [releaseNamedLockResult]
              simp only [releaseNamedLockResult]
              by_cases h2 : row2.int64 = 1
              · rcases hcm : env.commit with e6 | u <;> simp [h2]
              · simp [h2]
            · simp [huo]
        · simp [hi]
      · cases hu : env.updateInventoryErr
        · simp only [hu, Bool.false_eq_true, if_false]
          unfold procOrderReleaseCommit
          rcases ho : env.getOrder with e4 | o?
          · simp
          rcases o? with _ | o <;> simp only []
          · cases hio : env.insertOrderErr
            · simp only [hio, Bool.false_eq_true, if_false]
              rcases hr : env.releaseRow with e5 | row2
              · simp [releaseNamedLockResult]
              simp only [releaseNamedLockResult]
              by_cases h2 : row2.int64 = 1
              · rcases hcm : env.commit with e6 | u <;> simp [h2]
              · simp [h2]
            · simp [hio]
          · cases huo : env.updateOrderErr
            · simp only [huo, Bool.false_eq_true, if_false]
              rcases hr : env.releaseRow with e5 | row2
              · simp [releaseNamedLockResult]
              simp only [releaseNamedLockResult]
              by_cases h2 : row2.int64 = 1
              · rcases hcm : env.commit with e6 | u <;> simp [h2]
              · simp [h2]
            · simp [huo]
        · simp [hu]
    · simp [hg]

end NamedLock

namespace NamedLock

/-- C1 counterexample: in the product-not-found branch of
AcquireProcessReleaseLock, with the lock successfully acquired (GET_LOCK
returned 1), the operation COMMITS its transaction and still returns the
error `product not found` to its caller — refuting the claim that no
invocation that returns an error after acquiring the lock commits. -/
theorem C1_counterexample :
    (acquireProcessReleaseLock
        ⟨.ok (), .ok ⟨true, 1⟩, .ok none, false, false, false, .ok none, false, false,
          .ok ⟨true, 1⟩, .ok ()⟩ "P001" 5 [] 1).err = some (.productNotFound "P001") ∧
    (acquireProcessReleaseLock
        ⟨.ok (), .ok ⟨true, 1⟩, .ok none, false, false, false, .ok none, false, false,
          .ok ⟨true, 1⟩, .ok ()⟩ "P001" 5 [] 1).outcome = .committed := by
  constructor <;> rfl

/-- C1 amended: for AcquireHoldReleaseLock (both revisions),
AcquireProductReleaseLock and AcquireOrderReleaseLock, once the transaction
has begun every invocation that returns an error ends in Rollback, and Commit
is reached only on the all-success path.  For AcquireProcessReleaseLock the
same holds with one exception: the product-not-found branch, which releases
the lock, commits the transaction, and still returns the `product not found`
error; every other error path rolls back. -/
theorem C1_commit_only_on_success :
    (∀ env : AhrEnv, env.beginTx = .ok () → (acquireHoldReleaseLock env).err ≠ none →
      (acquireHoldReleaseLock env).outcome = .rolledBack) ∧
    (∀ env : V1.AhrEnv, env.beginTx = .ok () → (V1.acquireHoldReleaseLock env).err ≠ none →
      (V1.acquireHoldReleaseLock env).outcome = .rolledBack) ∧
    (∀ (env : V1.AprEnv) (q : Int), env.beginTx = .ok () →
      (V1.acquireProductReleaseLock env q).err ≠ none →
      (V1.acquireProductReleaseLock env q).outcome = .rolledBack) ∧
    (∀ env : V1.AorEnv, env.beginTx = .ok () → (V1.acquireOrderReleaseLock env).err ≠ none →
      (V1.acquireOrderReleaseLock env).outcome = .rolledBack) ∧
    (∀ (env : ProcEnv) (code : String) (q : Int) (invs : List Inventory) (nid : Int),
      env.beginTx = .ok () →
      ((acquireProcessReleaseLock env code q invs nid).err ≠ none →
        (acquireProcessReleaseLock env code q invs nid).err ≠ some (.productNotFound code) →
        (acquireProcessReleaseLock env code q invs nid).outcome = .rolledBack) ∧
      ((acquireProcessReleaseLock env code q invs nid).outcome = .committed →
        (acquireProcessReleaseLock env code q invs nid).err = none ∨
        (acquireProcessReleaseLock env code q invs nid).err = some (.productNotFound code))) := by
  refine ⟨fun env hb he => (ahr_rolledBack_iff env hb).mpr he,
    fun env hb he => (ahrV1_rolledBack_iff env hb).mpr he,
    fun env q hb he => (aprV1_rolledBack_iff env q hb).mpr he,
    fun env hb he => (aorV1_rolledBack_iff env hb).mpr he,
    fun env code q invs nid hb => ⟨fun he hnf => ?_, fun hc => ?_⟩⟩
  · exact (proc_committed_iff env code q invs nid hb).2.mpr (by tauto)
  · exact (proc_committed_iff env code q invs nid hb).1.mp hc

/-- C1 witness: the amended statement evaluated on concrete runs — a release
failure after acquire rolls each composite operation back, and the committed
product-not-found run carries exactly the `product not found` error. -/
theorem C1_commit_only_on_success_witness :
    (acquireHoldReleaseLock ⟨.ok (), .ok 7, .ok ⟨true, 1⟩, .ok 7, .ok 7, .ok ⟨true, 0⟩,
        .ok ()⟩).outcome = .rolledBack ∧
    (V1.acquireHoldReleaseLock ⟨.ok (), .ok 7, .ok true, .ok 7, .ok 7, .ok false,
        .ok ()⟩).outcome = .rolledBack ∧
    (V1.acquireProductReleaseLock ⟨.ok (), .ok true, .ok none, false, false, .ok false,
        .ok ()⟩ 5).outcome = .rolledBack ∧
    (V1.acquireOrderReleaseLock ⟨.ok (), .ok true, false, .ok [], .ok false,
        .ok ()⟩).outcome = .rolledBack ∧
    ((acquireProcessReleaseLock
        ⟨.ok (), .ok ⟨true, 1⟩, .ok none, false, false, false, .ok none, false, false,
          .ok ⟨true, 1⟩, .ok ()⟩ "P001" 5 [] 1).err = none ∨
      (acquireProcessReleaseLock
        ⟨.ok (), .ok ⟨true, 1⟩, .ok none, false, false, false, .ok none, false, false,
          .ok ⟨true, 1⟩, .ok ()⟩ "P001" 5 [] 1).err = some (.productNotFound "P001")) :=
  ⟨C1_commit_only_on_success.1 _ rfl (by decide),
   C1_commit_only_on_success.2.1 _ rfl (by decide),
   C1_commit_only_on_success.2.2.1 _ 5 rfl (by decide),
   C1_commit_only_on_success.2.2.2.1 _ rfl (by decide),
   (C1_commit_only_on_success.2.2.2.2 _ "P001" 5 [] 1 rfl).2 rfl⟩

end NamedLock

namespace NamedLock

/-- C2: for AcquireHoldReleaseLock (both revisions): when the acquire step
fails — capability error or a GET_LOCK result other than 1 (respectively not
true) — the transaction is rolled back, an acquire failure is returned, and
the release primitive is never called; when the release step fails after a
successful acquire, the transaction is still rolled back and the returned
failure is a release failure, a class of errors disjoint from the acquire
failures. -/
theorem C2_acquire_release_failure_handling :
    (∀ (env : AhrEnv) (sid : Int), env.beginTx = .ok () → env.connId1 = .ok sid →
      (∀ row, env.lockRow = .ok row → row.int64 ≠ 1) →
      (∃ e, (acquireHoldReleaseLock env).err = some e ∧ e.isAcquireFailure = true) ∧
      (acquireHoldReleaseLock env).outcome = .rolledBack ∧
      (∀ c ∈ (acquireHoldReleaseLock env).calls, c.op ≠ .releaseNamedLock)) ∧
    (∀ (env : AhrEnv) (sid : Int) (row : NullInt64) (s2 s3 : Int),
      env.beginTx = .ok () → env.connId1 = .ok sid →
      env.lockRow = .ok row → row.int64 = 1 →
      env.connId2 = .ok s2 → env.connId3 = .ok s3 →
      (∀ rrow, env.releaseRow = .ok rrow → rrow.int64 ≠ 1) →
      (∃ e, (acquireHoldReleaseLock env).err = some e ∧ e.isReleaseFailure = true) ∧
      (acquireHoldReleaseLock env).outcome = .rolledBack) ∧
    (∀ (env : V1.AhrEnv) (sid : Int), env.beginTx = .ok () → env.connId1 = .ok sid →
      (∀ b, env.getLock = .ok b → b = false) →
      (∃ e, (V1.acquireHoldReleaseLock env).err = some e ∧ e.isAcquireFailure = true) ∧
      (V1.acquireHoldReleaseLock env).outcome = .rolledBack ∧
      (∀ c ∈ (V1.acquireHoldReleaseLock env).calls, c.op ≠ .releaseNamedLock)) ∧
    (∀ (env : V1.AhrEnv) (sid : Int) (s2 s3 : Int),
      env.beginTx = .ok () → env.connId1 = .ok sid →
      env.getLock = .ok true → env.connId2 = .ok s2 → env.connId3 = .ok s3 →
      (∀ b, env.release = .ok b → b = false) →
      (∃ e, (V1.acquireHoldReleaseLock env).err = some e ∧ e.isReleaseFailure = true) ∧
      (V1.acquireHoldReleaseLock env).outcome = .rolledBack) ∧
    (∀ e : SvcErr, e.isAcquireFailure = true → e.isReleaseFailure = false) := by
  refine ⟨?_, ?_, ?_, ?_, ?_⟩
  · intro env sid hb hc1 hne
    unfold acquireHoldReleaseLock
    rw [hb, hc1]
    rcases hl : env.lockRow with e | row
    · refine ⟨⟨.acquireFailed, ?_, rfl⟩, ?_, ?_⟩ <;>
        simp [getNamedLockResult, SvcErr.isAcquireFailure]
    · have h1 := hne row hl
      refine ⟨⟨.acquireNotOne row.int64, ?_, rfl⟩, ?_, ?_⟩ <;>
        simp [getNamedLockResult, h1, SvcErr.isAcquireFailure]
  · intro env sid row s2 s3 hb hc1 hl h1 hc2 hc3 hne
    unfold acquireHoldReleaseLock
    rw [hb, hc1, hl, hc2, hc3]
    simp only [getNamedLockResult, h1]
    rcases hr : env.releaseRow with e | rrow
    · refine ⟨⟨.releaseFailed, ?_, rfl⟩, ?_⟩ <;>
        simp [releaseNamedLockResult, SvcErr.isReleaseFailure]
    · have h2 := hne rrow hr
      refine ⟨⟨.releaseNotOne rrow.int64, ?_, rfl⟩, ?_⟩ <;>
        simp [releaseNamedLockResult, h2, SvcErr.isReleaseFailure]
  · intro env sid hb hc1 hne
    unfold V1.acquireHoldReleaseLock
    rw [hb, hc1]
    rcases hl : env.getLock with e | b
    · refine ⟨⟨.acquireFailed, ?_, rfl⟩, ?_, ?_⟩ <;>
        simp [SvcErr.isAcquireFailure]
    · have h1 := hne b hl
      subst h1
      refine ⟨⟨.acquireNotTrue, ?_, rfl⟩, ?_, ?_⟩ <;>
        simp [SvcErr.isAcquireFailure]
  · intro env sid s2 s3 hb hc1 hl hc2 hc3 hne
    unfold V1.acquireHoldReleaseLock
    rw [hb, hc1, hl, hc2, hc3]
    rcases hr : env.release with e | b2
    · refine ⟨⟨.releaseFailed, ?_, rfl⟩, ?_⟩ <;>
        simp [SvcErr.isReleaseFailure]
    · have h2 := hne b2 hr
      subst h2
      refine ⟨⟨.releaseNotTrue, ?_, rfl⟩, ?_⟩ <;>
        simp [SvcErr.isReleaseFailure]
  · intro e he
    cases e <;> simp_all [SvcErr.isAcquireFailure, SvcErr.isReleaseFailure]

/-- C2 witness: the statement evaluated on a contended acquire (GET_LOCK
result 0) and on a failed release after a successful acquire (RELEASE_LOCK
result 0), in the current revision. -/
theorem C2_acquire_release_failure_handling_witness :
    ((∃ e, (acquireHoldReleaseLock ⟨.ok (), .ok 7, .ok ⟨true, 0⟩, .ok 7, .ok 7, .ok ⟨true, 1⟩,
        .ok ()⟩).err = some e ∧ e.isAcquireFailure = true) ∧
      (acquireHoldReleaseLock ⟨.ok (), .ok 7, .ok ⟨true, 0⟩, .ok 7, .ok 7, .ok ⟨true, 1⟩,
        .ok ()⟩).outcome = .rolledBack ∧
      (∀ c ∈ (acquireHoldReleaseLock ⟨.ok (), .ok 7, .ok ⟨true, 0⟩, .ok 7, .ok 7, .ok ⟨true, 1⟩,
        .ok ()⟩).calls, c.op ≠ .releaseNamedLock)) ∧
    ((∃ e, (acquireHoldReleaseLock ⟨.ok (), .ok 7, .ok ⟨true, 1⟩, .ok 7, .ok 7, .ok ⟨true, 0⟩,
        .ok ()⟩).err = some e ∧ e.isReleaseFailure = true) ∧
      (acquireHoldReleaseLock ⟨.ok (), .ok 7, .ok ⟨true, 1⟩, .ok 7, .ok 7, .ok ⟨true, 0⟩,
        .ok ()⟩).outcome = .rolledBack) ∧
    SvcErr.isReleaseFailure (.acquireNotOne 0) = false :=
  ⟨C2_acquire_release_failure_handling.1 _ 7 rfl rfl
      (by intro row hrow; cases hrow; decide),
   C2_acquire_release_failure_handling.2.1 _ 7 ⟨true, 1⟩ 7 7 rfl rfl rfl rfl rfl rfl
      (by intro rrow hrow; cases hrow; decide),
   C2_acquire_release_failure_handling.2.2.2.2 (.acquireNotOne 0) (by decide)⟩

end NamedLock

namespace NamedLock

/-- C4 counterexample: a fully successful AcquireOrderReleaseLock run performs
its ListOrderByCode read on a pooled connection (`s.db`, line 204 of the
service), not on the transaction-scoped connection, refuting the claim that
every database call of a composite operation between begin and commit runs on
the one transaction-scoped connection. -/
theorem C4_counterexample :
    (⟨.poolConn, .listOrderByCode⟩ : DbCall) ∈
      (V1.acquireOrderReleaseLock ⟨.ok (), .ok true, false, .ok [], .ok true, .ok ()⟩).calls ∧
    (V1.acquireOrderReleaseLock ⟨.ok (), .ok true, false, .ok [], .ok true, .ok ()⟩).err =
      none := by
  constructor
  · decide
  · rfl

/-- C4 amended: both revisions of AcquireHoldReleaseLock,
AcquireProductReleaseLock, and AcquireProcessReleaseLock perform every
database call of an invocation on the transaction-scoped connection; in
AcquireOrderReleaseLock every call except ListOrderByCode is on the
transaction-scoped connection, and the ListOrderByCode read is on a pooled
connection. -/
theorem C4_single_connection_discipline :
    (∀ env : AhrEnv, ∀ c ∈ (acquireHoldReleaseLock env).calls, c.conn = .txConn) ∧
    (∀ env : V1.AhrEnv, ∀ c ∈ (V1.acquireHoldReleaseLock env).calls, c.conn = .txConn) ∧
    (∀ (env : V1.AprEnv) (q : Int),
      ∀ c ∈ (V1.acquireProductReleaseLock env q).calls, c.conn = .txConn) ∧
    (∀ (env : ProcEnv) (code : String) (q : Int) (invs : List Inventory) (nid : Int),
      ∀ c ∈ (acquireProcessReleaseLock env code q invs nid).calls, c.conn = .txConn) ∧
    (∀ env : V1.AorEnv, ∀ c ∈ (V1.acquireOrderReleaseLock env).calls,
      (c.conn = .txConn ↔ c.op ≠ .listOrderByCode)) := by
  refine ⟨?_, ?_, ?_, ?_, ?_⟩
  · intro env
    simp only [acquireHoldReleaseLock]
    repeat' split
    all_goals simp
  · intro env
    simp only [V1.acquireHoldReleaseLock]
    repeat' split
    all_goals simp
  · intro env q
    simp only [V1.acquireProductReleaseLock]
    repeat' split
    all_goals simp
  · intro env code q invs nid
    simp only [acquireProcessReleaseLock, procOrderReleaseCommit]
    repeat' split
    all_goals simp
  · intro env
    simp only [V1.acquireOrderReleaseLock]
    repeat' split
    all_goals simp

/-- C4 witness: the amended statement evaluated on concrete successful runs of
each composite operation. -/
theorem C4_single_connection_discipline_witness :
    ((⟨.txConn, .releaseNamedLock⟩ : DbCall) ∈
        (acquireHoldReleaseLock ⟨.ok (), .ok 7, .ok ⟨true, 1⟩, .ok 7, .ok 7, .ok ⟨true, 1⟩,
          .ok ()⟩).calls →
      (⟨.txConn, .releaseNamedLock⟩ : DbCall).conn = .txConn) ∧
    ((⟨.txConn, .insertInventory⟩ : DbCall) ∈
        (acquireProcessReleaseLock
          ⟨.ok (), .ok ⟨true, 1⟩, .ok (some ⟨1, "P001", "widget"⟩), false, false, false,
            .ok none, false, false, .ok ⟨true, 1⟩, .ok ()⟩ "P001" 5 [] 1).calls →
      (⟨.txConn, .insertInventory⟩ : DbCall).conn = .txConn) ∧
    ((⟨.poolConn, .listOrderByCode⟩ : DbCall).conn = .txConn ↔
      (⟨.poolConn, .listOrderByCode⟩ : DbCall).op ≠ .listOrderByCode) :=
  ⟨C4_single_connection_discipline.1 _ _,
   C4_single_connection_discipline.2.2.2.1 _ "P001" 5 [] 1 _,
   C4_single_connection_discipline.2.2.2.2 ⟨.ok (), .ok true, false, .ok [], .ok true, .ok ()⟩
     ⟨.poolConn, .listOrderByCode⟩ (by decide)⟩

end NamedLock

namespace NamedLock

/-- Reading the inventory FOR UPDATE after inserting a fresh row for a product
that had none finds exactly the inserted row. -/
theorem getInventoryForUpdate_insert (invs : List Inventory) (pid nid q : Int)
    (h : getInventoryForUpdate invs pid = none) :
    getInventoryForUpdate (insertInventory invs nid pid q) pid = some ⟨nid, pid, q⟩ := by
  unfold getInventoryForUpdate insertInventory
  unfold getInventoryForUpdate at h
  rw [List.find?_append, h]
  simp

/-- Updating the quantity of the row found FOR UPDATE leaves it as the row
found by the next FOR UPDATE read of the same product. -/
theorem getInventoryForUpdate_update (invs : List Inventory) (pid : Int) (inv : Inventory)
    (h : getInventoryForUpdate invs pid = some inv) (nq : Int) :
    getInventoryForUpdate (updateInventory invs { inv with quantity := nq }) pid =
      some { inv with quantity := nq } := by
  unfold getInventoryForUpdate updateInventory
  unfold getInventoryForUpdate at h
  rw [List.find?_map]
  have hcomp : ((fun i : Inventory => decide (i.productID = pid)) ∘
      (fun i : Inventory => if i.id = ({ inv with quantity := nq } : Inventory).id then
        { i with quantity := ({ inv with quantity := nq } : Inventory).quantity } else i)) =
      fun i : Inventory => decide (i.productID = pid) := by
    funext i
    by_cases hi : i.id = inv.id <;> simp [Function.comp, hi]
  rw [hcomp, h]
  simp

end NamedLock

namespace NamedLock

/-- C5: on a successful AcquireProcessReleaseLock run, when the FOR UPDATE
inventory read finds no record a new record with quantity equal to the delta
is inserted and committed; when it finds a record with quantity q the record
is committed with quantity q + delta; consequently a first call with delta 5
against an absent record yields quantity 5 and a second call with delta 3
yields quantity 8. -/
theorem C5_guarded_read_modify_write :
    (∀ (env : ProcEnv) (code : String) (q : Int) (invs : List Inventory) (nid : Int)
        (row rrow : NullInt64) (p : Product),
      env.beginTx = .ok () → env.lockRow = .ok row → row.int64 = 1 →
      env.getProduct = .ok (some p) → env.getInventoryErr = false →
      env.insertInventoryErr = false → getInventoryForUpdate invs p.id = none →
      env.getOrder = .ok none → env.insertOrderErr = false →
      env.releaseRow = .ok rrow → rrow.int64 = 1 → env.commit = .ok () →
      (acquireProcessReleaseLock env code q invs nid).err = none ∧
      (acquireProcessReleaseLock env code q invs nid).outcome = .committed ∧
      getInventoryForUpdate (acquireProcessReleaseLock env code q invs nid).inventories p.id =
        some ⟨nid, p.id, q⟩) ∧
    (∀ (env : ProcEnv) (code : String) (q : Int) (invs : List Inventory) (nid : Int)
        (row rrow : NullInt64) (p : Product) (inv : Inventory),
      env.beginTx = .ok () → env.lockRow = .ok row → row.int64 = 1 →
      env.getProduct = .ok (some p) → env.getInventoryErr = false →
      env.updateInventoryErr = false → getInventoryForUpdate invs p.id = some inv →
      env.getOrder = .ok none → env.insertOrderErr = false →
      env.releaseRow = .ok rrow → rrow.int64 = 1 → env.commit = .ok () →
      (acquireProcessReleaseLock env code q invs nid).err = none ∧
      (acquireProcessReleaseLock env code q invs nid).outcome = .committed ∧
      getInventoryForUpdate (acquireProcessReleaseLock env code q invs nid).inventories p.id =
        some { inv with quantity := inv.quantity + q }) ∧
    ((acquireProcessReleaseLock
        ⟨.ok (), .ok ⟨true, 1⟩, .ok (some ⟨1, "P001", "widget"⟩), false, false, false,
          .ok none, false, false, .ok ⟨true, 1⟩, .ok ()⟩ "P001" 5 [] 1).inventories =
        [⟨1, 1, 5⟩] ∧
      (acquireProcessReleaseLock
        ⟨.ok (), .ok ⟨true, 1⟩, .ok (some ⟨1, "P001", "widget"⟩), false, false, false,
          .ok none, false, false, .ok ⟨true, 1⟩, .ok ()⟩ "P001" 3
        (acquireProcessReleaseLock
          ⟨.ok (), .ok ⟨true, 1⟩, .ok (some ⟨1, "P001", "widget"⟩), false, false, false,
            .ok none, false, false, .ok ⟨true, 1⟩, .ok ()⟩ "P001" 5 [] 1).inventories
        2).inventories = [⟨1, 1, 8⟩]) := by
  refine ⟨?_, ?_, by decide, by decide⟩
  · intro env code q invs nid row rrow p hb hl h1 hp hgi hii habs hor hio hr h2 hcm
    refine ⟨?_, ?_, ?_⟩ <;>
      simp [acquireProcessReleaseLock, procOrderReleaseCommit, getNamedLockResult,
        releaseNamedLockResult, hb, hl, h1, hp, hgi, hii, habs, hor, hio, hr, h2, hcm,
        getInventoryForUpdate_insert invs p.id nid q habs]
  · intro env code q invs nid row rrow p inv hb hl h1 hp hgi hui hfound hor hio hr h2 hcm
    refine ⟨?_, ?_, ?_⟩ <;>
      simp [acquireProcessReleaseLock, procOrderReleaseCommit, getNamedLockResult,
        releaseNamedLockResult, hb, hl, h1, hp, hgi, hui, hfound, hor, hio, hr, h2, hcm,
        getInventoryForUpdate_update invs p.id inv hfound (inv.quantity + q)]

/-- C5 witness: the absent-record clause evaluated on a concrete run — the
committed table carries the new record with quantity equal to the delta. -/
theorem C5_guarded_read_modify_write_witness :
    (acquireProcessReleaseLock
        ⟨.ok (), .ok ⟨true, 1⟩, .ok (some ⟨1, "P001", "widget"⟩), false, false, false,
          .ok none, false, false, .ok ⟨true, 1⟩, .ok ()⟩ "P001" 5 [] 1).err = none ∧
    (acquireProcessReleaseLock
        ⟨.ok (), .ok ⟨true, 1⟩, .ok (some ⟨1, "P001", "widget"⟩), false, false, false,
          .ok none, false, false, .ok ⟨true, 1⟩, .ok ()⟩ "P001" 5 [] 1).outcome = .committed ∧
    getInventoryForUpdate
      (acquireProcessReleaseLock
        ⟨.ok (), .ok ⟨true, 1⟩, .ok (some ⟨1, "P001", "widget"⟩), false, false, false,
          .ok none, false, false, .ok ⟨true, 1⟩, .ok ()⟩ "P001" 5 [] 1).inventories 1 =
      some ⟨1, 1, 5⟩ :=
  C5_guarded_read_modify_write.1
    ⟨.ok (), .ok ⟨true, 1⟩, .ok (some ⟨1, "P001", "widget"⟩), false, false, false,
      .ok none, false, false, .ok ⟨true, 1⟩, .ok ()⟩ "P001" 5 [] 1
    ⟨true, 1⟩ ⟨true, 1⟩ ⟨1, "P001", "widget"⟩
    rfl rfl rfl rfl rfl rfl (by decide) rfl rfl rfl rfl rfl

end NamedLock

namespace NamedLock

/-- C8 counterexample: in the handler revision at
src/internal/handler/lock_handler.go lines 344-386, a bad request body is
answered with HTTP status 400, not 200 — refuting the claim that no handler
error path produces a non-200 transport-level status. -/
theorem C8_counterexample :
    (HB.acquireHoldReleaseLockHandler
        ⟨true, .ok 7, .ok (true, "7"), .ok ⟨false, 0⟩⟩).status = 400 ∧
    (HB.acquireHoldReleaseLockHandler
        ⟨true, .ok 7, .ok (true, "7"), .ok ⟨false, 0⟩⟩).status ≠ 200 := by
  constructor
  · rfl
  · decide

/-- C8 amended: the handlers of the always-200 revision respond with HTTP
status 200 on every path and render every error path (bad request body,
service error, failed session-id read) as a payload with `success:false` and a
message; the 400/500 revision instead answers a bad request body with HTTP 400
and internal failures with HTTP 500. -/
theorem C8_error_paths_rendered_as_200 :
    (∀ env : HA.AhrHandlerEnv, (HA.acquireHoldReleaseLockHandler env).status = 200) ∧
    (∀ env : HA.AhrHandlerEnv, env.bindErr = true ∨ env.svcErr ≠ none →
      (HA.acquireHoldReleaseLockHandler env).success = some false ∧
      (HA.acquireHoldReleaseLockHandler env).message ≠ none) ∧
    (∀ env : HA.ProcHandlerEnv, (HA.acquireProcessReleaseLockHandler env).status = 200) ∧
    (∀ env : HA.ProcHandlerEnv,
      env.bindErr = true ∨ env.svcErr ≠ none ∨ env.sessionRes = .error () →
      (HA.acquireProcessReleaseLockHandler env).success = some false ∧
      (HA.acquireProcessReleaseLockHandler env).message ≠ none) ∧
    (∀ env : HB.AhrHandlerEnv, env.bindErr = true →
      (HB.acquireHoldReleaseLockHandler env).status = 400) ∧
    (∀ env : HB.AhrHandlerEnv, env.bindErr = false →
      env.curSession = .error () ∨ env.svc = .error () →
      (HB.acquireHoldReleaseLockHandler env).status = 500) := by
  refine ⟨?_, ?_, ?_, ?_, ?_, ?_⟩
  · intro env
    simp only [HA.acquireHoldReleaseLockHandler]
    repeat' split
    all_goals rfl
  · intro env h
    rcases h with h | h <;> cases hbe : env.bindErr <;>
      rcases hsv : env.svcErr with _ | e <;>
      simp_all [HA.acquireHoldReleaseLockHandler]
  · intro env
    simp only [HA.acquireProcessReleaseLockHandler]
    repeat' split
    all_goals rfl
  · intro env h
    rcases h with h | h | h <;> cases hbe : env.bindErr <;>
      rcases hsv : env.svcErr with _ | e <;>
      rcases hse : env.sessionRes with u | s <;>
      simp_all [HA.acquireProcessReleaseLockHandler]
  · intro env h
    simp [HB.acquireHoldReleaseLockHandler, h]
  · intro env hb h
    rcases h with h | h <;> rcases hcs : env.curSession with u | s <;>
      simp_all [HB.acquireHoldReleaseLockHandler]

/-- C8 witness: the amended statement evaluated on concrete requests — a
service failure in the always-200 revision still answers 200 with
`success:false`, and a bad body in the 400/500 revision answers 400. -/
theorem C8_error_paths_rendered_as_200_witness :
    (HA.acquireHoldReleaseLockHandler ⟨false, "", some (.acquireNotOne 0)⟩).status = 200 ∧
    (HA.acquireHoldReleaseLockHandler ⟨false, "", some (.acquireNotOne 0)⟩).success =
      some false ∧
    (HB.acquireHoldReleaseLockHandler
        ⟨true, .ok 7, .ok (true, "7"), .ok ⟨false, 0⟩⟩).status = 400 :=
  ⟨C8_error_paths_rendered_as_200.1 ⟨false, "", some (.acquireNotOne 0)⟩,
   (C8_error_paths_rendered_as_200.2.1 ⟨false, "", some (.acquireNotOne 0)⟩
      (Or.inr (by decide))).1,
   C8_error_paths_rendered_as_200.2.2.2.2.1
      ⟨true, .ok 7, .ok (true, "7"), .ok ⟨false, 0⟩⟩ rfl⟩

end NamedLock
